import Mathlib

/-!
Shallow embedding of `DS1216Clock.ino`, a bit-banged protocol driver for the
Dallas DS1216 real-time-clock chip, together with proofs about its BCD codec,
register codec, serial printing path, and wire-level transport traces.

Machine bytes (`byte` in the source) are modelled as `Nat` with an explicit
`% 256` wherever the 8-bit type can truncate; C `int` is modelled as `Int`
with C's truncated remainder (`Int.tmod`) where `%` appears in the source.
-/

namespace DS1216

/-! ## Pin and register-index constants (lines 77-98 of the source) -/

def dsDQ0pin : Nat := 4
def ds_WEpin : Nat := 5
def ds_OEpin : Nat := 6
def ds_CEpin : Nat := 7

def dsSubSecondRegister : Nat := 0
def dsSecondsRegister : Nat := 1
def dsMinutesRegister : Nat := 2
def dsHourRegister : Nat := 3
def dsDayRegister : Nat := 4
def dsDateRegister : Nat := 5
def dsMonthRegister : Nat := 6
def dsYearRegister : Nat := 7

def ds_OSCbit : Nat := 0x20
def ds1224bit : Nat := 0x80
def dsAMPMbit : Nat := 0x20

/-! ## BCD codec (source lines 109-126) -/

/-- `byte decimal2BCD(byte dec) { return (dec/10)*16 + (dec%10); }`.
The argument is truncated to 8 bits by the parameter type and the result is
truncated to 8 bits by the return type (the intermediate arithmetic is `int`,
so only the final store wraps). -/
def decimal2BCD (dec : Nat) : Nat :=
  ((dec % 256) / 10 * 16 + (dec % 256) % 10) % 256

/-- `byte BCD2Decimal(byte bcd) { return (bcd/16) * 10 + bcd%16; }` with the
same 8-bit parameter/return truncation. -/
def BCD2Decimal (bcd : Nat) : Nat :=
  ((bcd % 256) / 16 * 10 + (bcd % 256) % 16) % 256

/-- `BCD2ASCII` renders the two nibbles of a byte independently as the
characters `'0'+nibble`, without going through `BCD2Decimal`. -/
def BCD2ASCII (bcd : Nat) : String :=
  String.mk [Char.ofNat ((bcd % 256) / 16 + 48), Char.ofNat ((bcd % 256) % 16 + 48)]

/-! ## Serial printing path (source lines 238-280)

A register image is the chip's 8-byte state, modelled as a `List Nat` indexed
by the register-index constants.  The serial output of each print routine is
modelled as the `String` it sends to the serial monitor. -/

/-- `dsSerialPrintDate`: prints `20` then year, month, date registers as
BCD digit pairs in ISO order. -/
def dsSerialPrintDate (dsRegister : List Nat) : String :=
  "20" ++ BCD2ASCII (dsRegister.getD dsYearRegister 0)
    ++ "-" ++ BCD2ASCII (dsRegister.getD dsMonthRegister 0)
    ++ "-" ++ BCD2ASCII (dsRegister.getD dsDateRegister 0)

/-- `dsSerialPrintTime`: prints hours, minutes, seconds, sub-seconds registers
as BCD digit pairs. -/
def dsSerialPrintTime (dsRegister : List Nat) : String :=
  BCD2ASCII (dsRegister.getD dsHourRegister 0)
    ++ ":" ++ BCD2ASCII (dsRegister.getD dsMinutesRegister 0)
    ++ ":" ++ BCD2ASCII (dsRegister.getD dsSecondsRegister 0)
    ++ "." ++ BCD2ASCII (dsRegister.getD dsSubSecondRegister 0)

/-- The 7-entry weekday-name array declared inside `dsSerialPrintRegisters`. -/
def dayStrings : List String :=
  ["Monday", "Tuesday", "Wednesday", "Thursday", "Friday", "Saturday", "Sunday"]

/-- `int dayIndex = dsRegister[dsDayRegister] & 0x0f;` -/
def dayIndex (dsRegister : List Nat) : Nat :=
  (dsRegister.getD dsDayRegister 0) &&& 0x0f

/-- `dsSerialPrintRegisters` prints `dayStrings[dayIndex]`, a space, the date,
a space, and the time.  The C array access `dayStrings[dayIndex]` is modelled
as `List.get?`: `none` means the access is out of bounds of the 7-entry array
(undefined behavior in the C source), in which case no defined output exists. -/
def dsSerialPrintRegisters (dsRegister : List Nat) : Option String :=
  (dayStrings.get? (dayIndex dsRegister)).map
    (fun day => day ++ " " ++ dsSerialPrintDate dsRegister
      ++ " " ++ dsSerialPrintTime dsRegister)

/-! ## Calendar values and the register codec (source lines 326-351) -/

/-- The decoded, binary (non-BCD) calendar value of the spec's data model. -/
structure CalendarTime where
  year : Nat
  month : Nat
  date : Nat
  dow : Nat
  hour : Nat
  minute : Nat
  second : Nat
  subsec : Nat
deriving DecidableEq, Repr

/-- C conversion of an `int` value to `byte` (`uint8_t`): reduce modulo 256. -/
def byteOfInt (i : Int) : Nat := (i % 256).toNat

/-- The 8-byte register image built by `dsWriteRegisters( int year, byte month,
byte day, byte dow, byte hours, byte minutes, byte seconds )` before it sends
the bytes (source lines 329-339): sub-second is written as the constant 0 and
every other field is BCD-encoded, the year after C truncated remainder
`year % 100` on `int` and conversion to `byte`. -/
def dsWriteRegsImage (year : Int) (month day dow hours minutes seconds : Nat) : List Nat :=
  [0,
   decimal2BCD seconds,
   decimal2BCD minutes,
   decimal2BCD hours,
   decimal2BCD dow,
   decimal2BCD day,
   decimal2BCD month,
   decimal2BCD (byteOfInt (year.tmod 100))]

/-- Register Codec encode: a `CalendarTime` fed through the per-field encoding
of `dsWriteRegisters` (the `reg[]` assignments, source lines 331-339). -/
def encodeCalendarTime (ct : CalendarTime) : List Nat :=
  dsWriteRegsImage (ct.year : Int) ct.month ct.date ct.dow ct.hour ct.minute ct.second

/-- Modelled from the spec: the repository has no decode-to-CalendarTime
function (the read path goes straight to serial printing), so the Register
Codec decode of spec section 4.5 is modelled here: per-field `BCD2Decimal`
under the fixed register-index mapping, with day-of-week taken from the low
4 bits of the day register (the oscillator flag lives in the same byte). -/
def decodeRegisters (regs : List Nat) : CalendarTime :=
  { year := BCD2Decimal (regs.getD dsYearRegister 0)
    month := BCD2Decimal (regs.getD dsMonthRegister 0)
    date := BCD2Decimal (regs.getD dsDateRegister 0)
    dow := BCD2Decimal ((regs.getD dsDayRegister 0) &&& 0x0f)
    hour := BCD2Decimal (regs.getD dsHourRegister 0)
    minute := BCD2Decimal (regs.getD dsMinutesRegister 0)
    second := BCD2Decimal (regs.getD dsSecondsRegister 0)
    subsec := BCD2Decimal (regs.getD dsSubSecondRegister 0) }

/-! ## Wire-level transport traces (source lines 139-233, 286-306, 397-404)

Every call to the Arduino pin primitives is recorded as a `PinEvent`.  Pin
levels and directions are `Bool`: `true` is HIGH (for `digitalWrite`) or
OUTPUT (for `pinMode`).  Values returned by `digitalRead` on the data pin are
supplied by an environment stream `s : Nat → Bool`, where `s k` is the level
sampled by the k-th `digitalRead` of the scenario; traces are lists of events
and sequential reads consume successive stream positions. -/

inductive PinEvent where
  | digitalWrite (pin : Nat) (level : Bool)
  | pinMode (pin : Nat) (output : Bool)
  | digitalRead (pin : Nat)
deriving DecidableEq, Repr

/-- `dsChipEnable`: enable drives /CE LOW, disable drives it HIGH. -/
def dsChipEnableTrace (enableChip : Bool) : List PinEvent :=
  if enableChip then [PinEvent.digitalWrite ds_CEpin false]
  else [PinEvent.digitalWrite ds_CEpin true]

/-- `dsWriteBit`: drive DQ0 to the bit level, pulse /WE low then high. -/
def dsWriteBitTrace (bitLevel : Bool) : List PinEvent :=
  [PinEvent.digitalWrite dsDQ0pin bitLevel,
   PinEvent.digitalWrite ds_WEpin false,
   PinEvent.digitalWrite ds_WEpin true]

/-- `dsReadBit`: pulse /OE low, sample DQ0, restore /OE high. -/
def dsReadBitTrace : List PinEvent :=
  [PinEvent.digitalWrite ds_OEpin false,
   PinEvent.digitalRead dsDQ0pin,
   PinEvent.digitalWrite ds_OEpin true]

/-- `dsSendByte( byte n )`: chip enable, DQ0 to OUTPUT, eight `dsWriteBit`
calls with `n & 0x01` .. `n & 0x80` (C converts a nonzero byte to `true`),
chip disable. -/
def dsSendByteTrace (n : Nat) : List PinEvent :=
  dsChipEnableTrace true ++ [PinEvent.pinMode dsDQ0pin true]
    ++ dsWriteBitTrace (n &&& 0x01 != 0)
    ++ dsWriteBitTrace (n &&& 0x02 != 0)
    ++ dsWriteBitTrace (n &&& 0x04 != 0)
    ++ dsWriteBitTrace (n &&& 0x08 != 0)
    ++ dsWriteBitTrace (n &&& 0x10 != 0)
    ++ dsWriteBitTrace (n &&& 0x20 != 0)
    ++ dsWriteBitTrace (n &&& 0x40 != 0)
    ++ dsWriteBitTrace (n &&& 0x80 != 0)
    ++ dsChipEnableTrace false

/-- Pin events of `dsReadByte()`: DQ0 to INPUT, chip enable, eight
`dsReadBit` calls, chip disable. -/
def dsReadByteTrace : List PinEvent :=
  [PinEvent.pinMode dsDQ0pin false] ++ dsChipEnableTrace true
    ++ dsReadBitTrace ++ dsReadBitTrace ++ dsReadBitTrace ++ dsReadBitTrace
    ++ dsReadBitTrace ++ dsReadBitTrace ++ dsReadBitTrace ++ dsReadBitTrace
    ++ dsChipEnableTrace false

/-- `digitalRead` result as the byte value `dsReadBit` returns (1 for HIGH). -/
def bitVal (b : Bool) : Nat := cond b 1 0

/-- The byte `dsReadByte` assembles from its eight successive `dsReadBit`
results: `b = r0; b |= r1 << 1; ... ; b |= r7 << 7;`. -/
def assembleByte (b0 b1 b2 b3 b4 b5 b6 b7 : Bool) : Nat :=
  bitVal b0
    ||| bitVal b1 <<< 1
    ||| bitVal b2 <<< 2
    ||| bitVal b3 <<< 3
    ||| bitVal b4 <<< 4
    ||| bitVal b5 <<< 5
    ||| bitVal b6 <<< 6
    ||| bitVal b7 <<< 7

/-- Value returned by `dsReadByte()` when its eight `dsReadBit` calls sample
stream positions `pos` .. `pos+7` in order. -/
def dsReadByteVal (s : Nat → Bool) (pos : Nat) : Nat :=
  assembleByte (s pos) (s (pos+1)) (s (pos+2)) (s (pos+3))
    (s (pos+4)) (s (pos+5)) (s (pos+6)) (s (pos+7))

/-- The throwaway-bit-read prelude of `dsSendCodes` (source lines 291-294):
chip enable, DQ0 to INPUT, one discarded `dsReadBit`, chip disable. -/
def dsSendCodesBitChunk : List PinEvent :=
  dsChipEnableTrace true ++ [PinEvent.pinMode dsDQ0pin false]
    ++ dsReadBitTrace ++ dsChipEnableTrace false

/-- Pin events of `dsSendCodes()`: the throwaway bit read, then the eight
wake-code byte sends (source lines 297-305).  The trace does not depend on
the value the bit read returns: the code discards it. -/
def dsSendCodesTrace : List PinEvent :=
  dsSendCodesBitChunk
    ++ dsSendByteTrace 0xC5 ++ dsSendByteTrace 0x3A
    ++ dsSendByteTrace 0xA3 ++ dsSendByteTrace 0x5C
    ++ dsSendByteTrace 0xC5 ++ dsSendByteTrace 0x3A
    ++ dsSendByteTrace 0xA3 ++ dsSendByteTrace 0x5C

/-- One abstract transport operation, the unit the spec counts. -/
inductive XferOp where
  | bitRead
  | byteSend (n : Nat)
deriving DecidableEq, Repr

/-- Pin events of one transport operation, following the spec's wording:
the throwaway bit read happens with chip-enable asserted and the data line
set to input, and chip-enable is deasserted afterwards; a byte send is the
Byte Transport's send-byte operation. -/
def renderXferOp : XferOp → List PinEvent
  | XferOp.bitRead =>
      [PinEvent.digitalWrite ds_CEpin false, PinEvent.pinMode dsDQ0pin false,
       PinEvent.digitalWrite ds_OEpin false, PinEvent.digitalRead dsDQ0pin,
       PinEvent.digitalWrite ds_OEpin true, PinEvent.digitalWrite ds_CEpin true]
  | XferOp.byteSend n => dsSendByteTrace n

/-- The spec's fixed wake-sequence operation list: one throwaway bit read,
then the eight literal wake-code bytes in order. -/
def wakeOpsSpec : List XferOp :=
  [XferOp.bitRead,
   XferOp.byteSend 0xC5, XferOp.byteSend 0x3A, XferOp.byteSend 0xA3, XferOp.byteSend 0x5C,
   XferOp.byteSend 0xC5, XferOp.byteSend 0x3A, XferOp.byteSend 0xA3, XferOp.byteSend 0x5C]

/-- Spec-side rendering of send-byte: assert chip-enable, data line to
output, the 8 bits of `n` least-significant-bit first, deassert chip-enable. -/
def dsSendByteSpecTrace (n : Nat) : List PinEvent :=
  [PinEvent.digitalWrite ds_CEpin false, PinEvent.pinMode dsDQ0pin true]
    ++ (List.range 8).flatMap (fun i => dsWriteBitTrace (n.testBit i))
    ++ [PinEvent.digitalWrite ds_CEpin true]

/-- Pin events of `dsReadRegisters`: eight consecutive `dsReadByte` calls. -/
def dsReadRegistersTrace : List PinEvent :=
  dsReadByteTrace ++ dsReadByteTrace ++ dsReadByteTrace ++ dsReadByteTrace
    ++ dsReadByteTrace ++ dsReadByteTrace ++ dsReadByteTrace ++ dsReadByteTrace

/-- Register image filled by `dsReadRegisters` when its first `dsReadByte`
starts at stream position `pos`: `dsRegister[i]` receives the i-th byte,
assembled from stream positions `pos+8*i` .. `pos+8*i+7`. -/
def dsReadRegistersVal (s : Nat → Bool) (pos : Nat) : List Nat :=
  [dsReadByteVal s pos, dsReadByteVal s (pos+8),
   dsReadByteVal s (pos+16), dsReadByteVal s (pos+24),
   dsReadByteVal s (pos+32), dsReadByteVal s (pos+40),
   dsReadByteVal s (pos+48), dsReadByteVal s (pos+56)]

/-- Pin events of `dsReadAndPrintTime()`: `dsSendCodes()` then
`dsReadRegisters(...)`; `dsSerialPrintRegisters` touches no pins. -/
def dsReadAndPrintTimeTrace : List PinEvent :=
  dsSendCodesTrace ++ dsReadRegistersTrace

/-- Serial line printed by `dsReadAndPrintTime()`: the wake sequence consumes
stream position 0 (the discarded bit), so the registers are assembled from
positions 1 onward. -/
def dsReadAndPrintTimeOutput (s : Nat → Bool) : Option String :=
  dsSerialPrintRegisters (dsReadRegistersVal s 1)

/-- The byte-operation chunks a full read cycle is made of, in order:
the wake sequence's bit-read prelude, its eight byte sends, then the eight
register byte receives. -/
def dsReadCycleChunks : List (List PinEvent) :=
  [dsSendCodesBitChunk,
   dsSendByteTrace 0xC5, dsSendByteTrace 0x3A, dsSendByteTrace 0xA3, dsSendByteTrace 0x5C,
   dsSendByteTrace 0xC5, dsSendByteTrace 0x3A, dsSendByteTrace 0xA3, dsSendByteTrace 0x5C,
   dsReadByteTrace, dsReadByteTrace, dsReadByteTrace, dsReadByteTrace,
   dsReadByteTrace, dsReadByteTrace, dsReadByteTrace, dsReadByteTrace]

/-- Level left on the chip-enable pin by a trace: the level of the last
`digitalWrite` to /CE, if any (`true` = HIGH = deasserted). -/
def ceFinal (t : List PinEvent) : Option Bool :=
  t.foldl (fun acc e =>
    match e with
    | PinEvent.digitalWrite p l => if p = ds_CEpin then some l else acc
    | _ => acc) none

/-- An all-low environment stream, used to instantiate trace theorems. -/
def zeroBits : Nat → Bool := fun _ => false

end DS1216

set_option maxRecDepth 16384

namespace DS1216

/-! ## Helper lemmas -/

/-- BCD encode then decode is the identity on two-digit values. -/
lemma bcd_round (d : Nat) (h : d ≤ 99) : BCD2Decimal (decimal2BCD d) = d := by
  revert d; decide

/-- BCD encode is the identity on single digits. -/
lemma d2b_digit (d : Nat) (h : d ≤ 9) : decimal2BCD d = d := by revert d; decide

/-- BCD decode is the identity on single digits. -/
lemma b2d_digit (d : Nat) (h : d ≤ 9) : BCD2Decimal d = d := by revert d; decide

/-- Masking with `0x0f` does not change a value below 16. -/
lemma and15_small (d : Nat) (h : d < 16) : d &&& 15 = d := by revert d; decide

/-- C `year % 100` on a two-digit nonnegative year, converted to `byte`,
is the year itself. -/
lemma byteOfInt_year (y : Nat) (hy : y ≤ 99) : byteOfInt ((y : Int).tmod 100) = y := by
  have h : (y : Int).tmod 100 = ((y % 100 : Nat) : Int) := (Int.ofNat_tmod y 100).symm
  rw [byteOfInt, h]
  omega

/-- Bit `i < 8` of the byte `dsReadByte` assembles is the i-th bit read. -/
lemma assembleByte_testBit :
    ∀ (b0 b1 b2 b3 b4 b5 b6 b7 : Bool), ∀ i, i < 8 →
      (assembleByte b0 b1 b2 b3 b4 b5 b6 b7).testBit i
        = [b0, b1, b2, b3, b4, b5, b6, b7].getD i false := by decide

/-- The assembled byte is an 8-bit value. -/
lemma assembleByte_lt :
    ∀ (b0 b1 b2 b3 b4 b5 b6 b7 : Bool),
      assembleByte b0 b1 b2 b3 b4 b5 b6 b7 < 256 := by decide

/-- The send-byte pin trace of the source equals the spec-side rendering
(8 bits least-significant-bit first) for every byte. -/
lemma sendTrace_eq_spec : ∀ n, n < 256 → dsSendByteTrace n = dsSendByteSpecTrace n := by
  decide

/-! ## Claim theorems -/

/-- C1: for the register image `[0x00,0x27,0x31,0x15,0x07,0x19,0x02,0x20]`
the decode-and-print path does NOT produce the claimed line
`Sunday 2020-02-19 15:31:27.00`: the day register 0x07 yields `dayIndex = 7`,
which is one past the end of the 7-entry `dayStrings` array (an out-of-bounds
access, undefined behavior in the C source; `"Sunday"` sits at index 6), so
the weekday lookup has no defined result, while the date and time parts do
print as `2020-02-19` and `15:31:27.00`. -/
theorem printRegisters_scenario_day7_out_of_bounds :
    dayIndex [0x00, 0x27, 0x31, 0x15, 0x07, 0x19, 0x02, 0x20] = 7
    ∧ dayStrings.length = 7
    ∧ dayStrings.get? (dayIndex [0x00, 0x27, 0x31, 0x15, 0x07, 0x19, 0x02, 0x20]) = none
    ∧ dsSerialPrintRegisters [0x00, 0x27, 0x31, 0x15, 0x07, 0x19, 0x02, 0x20] = none
    ∧ dsSerialPrintDate [0x00, 0x27, 0x31, 0x15, 0x07, 0x19, 0x02, 0x20] = "2020-02-19"
    ∧ dsSerialPrintTime [0x00, 0x27, 0x31, 0x15, 0x07, 0x19, 0x02, 0x20] = "15:31:27.00"
    ∧ dayStrings.getD 6 "" = "Sunday" := by
  decide

/-- C2: the weekday-name lookup is NOT in bounds for every day register whose
low 4 bits are in [1,7]: the day value 7 (here register byte 0x27, oscillator
flag set, low nibble 7) gives index 7, which is not below the array length 7,
so `dayStrings[7]` is out of bounds; indices 1..6 are the only claimed values
that are in bounds. -/
theorem dayStrings_lookup_bounds_violated_at_seven :
    1 ≤ dayIndex [0, 0, 0, 0, 0x27, 0, 0, 0]
    ∧ dayIndex [0, 0, 0, 0, 0x27, 0, 0, 0] ≤ 7
    ∧ dayStrings.length ≤ dayIndex [0, 0, 0, 0, 0x27, 0, 0, 0]
    ∧ dayStrings.get? (dayIndex [0, 0, 0, 0, 0x27, 0, 0, 0]) = none
    ∧ (∀ v, v < 7 → 1 ≤ v → (dayStrings.get? v).isSome = true) := by
  decide

/-- C3 (counterexample): the encode-then-decode round trip is not the
identity on every in-range `CalendarTime`: for year 25, month 12, date 31,
day-of-week 3, hour 9, minute 5, second 0, sub-second 1 — every field within
the documented chip ranges — the encoder writes the sub-second register as
the constant 0, so decoding returns sub-second 0, not 1. -/
theorem registerCodec_roundtrip_fails_on_subsec :
    (⟨25, 12, 31, 3, 9, 5, 0, 1⟩ : CalendarTime).subsec ≤ 99
    ∧ decodeRegisters (encodeCalendarTime ⟨25, 12, 31, 3, 9, 5, 0, 1⟩)
        ≠ (⟨25, 12, 31, 3, 9, 5, 0, 1⟩ : CalendarTime)
    ∧ (decodeRegisters (encodeCalendarTime ⟨25, 12, 31, 3, 9, 5, 0, 1⟩)).subsec = 0 := by
  decide

/-- C3 (amended): for every `CalendarTime` with fields in the documented chip
ranges AND sub-second 0 (the encoder unconditionally writes the sub-second
register as 0), encoding through the `dsWriteRegisters` field encoding and
decoding back through the per-field Register Codec reproduces the identical
`CalendarTime`. -/
theorem registerCodec_roundtrip_subsec_zero (ct : CalendarTime)
    (hy : ct.year ≤ 99)
    (hm1 : 1 ≤ ct.month) (hm2 : ct.month ≤ 12)
    (hd1 : 1 ≤ ct.date) (hd2 : ct.date ≤ 31)
    (hw1 : 1 ≤ ct.dow) (hw2 : ct.dow ≤ 7)
    (hh : ct.hour ≤ 23) (hmi : ct.minute ≤ 59) (hs : ct.second ≤ 59)
    (hss : ct.subsec = 0) :
    decodeRegisters (encodeCalendarTime ct) = ct := by
  obtain ⟨year, month, date, dow, hour, minute, second, subsec⟩ := ct
  simp only at hy hm1 hm2 hd1 hd2 hw1 hw2 hh hmi hs hss
  subst hss
  simp only [encodeCalendarTime, dsWriteRegsImage, decodeRegisters,
    dsSubSecondRegister, dsSecondsRegister, dsMinutesRegister, dsHourRegister,
    dsDayRegister, dsDateRegister, dsMonthRegister, dsYearRegister,
    List.getD_cons_zero, List.getD_cons_succ,
    CalendarTime.mk.injEq]
  refine ⟨?_, ?_, ?_, ?_, ?_, ?_, ?_, ?_⟩
  · rw [byteOfInt_year year hy]
    exact bcd_round year hy
  · exact bcd_round month (by omega)
  · exact bcd_round date (by omega)
  · rw [d2b_digit dow (by omega), and15_small dow (by omega)]
    exact b2d_digit dow (by omega)
  · exact bcd_round hour (by omega)
  · exact bcd_round minute (by omega)
  · exact bcd_round second (by omega)
  · decide

/-- C3 (witness): the round trip is the identity at the claim's concrete
instance CalendarTime(year=25, month=12, date=31, dow=3, hour=9, minute=5,
second=0) with sub-second 0. -/
theorem registerCodec_roundtrip_subsec_zero_witness :
    ((⟨25, 12, 31, 3, 9, 5, 0, 0⟩ : CalendarTime).year ≤ 99
      ∧ (⟨25, 12, 31, 3, 9, 5, 0, 0⟩ : CalendarTime).subsec = 0)
    ∧ decodeRegisters (encodeCalendarTime ⟨25, 12, 31, 3, 9, 5, 0, 0⟩)
        = (⟨25, 12, 31, 3, 9, 5, 0, 0⟩ : CalendarTime) :=
  ⟨⟨by decide, by decide⟩,
    registerCodec_roundtrip_subsec_zero ⟨25, 12, 31, 3, 9, 5, 0, 0⟩
      (by decide) (by decide) (by decide) (by decide) (by decide) (by decide)
      (by decide) (by decide) (by decide) (by decide) (by decide)⟩

/-- C4: `dsSendCodes` emits exactly 9 transport operations in fixed order —
one throwaway bit read performed with chip-enable asserted and the data line
set to input, chip-enable deasserted afterwards, then eight byte sends
carrying the literal bytes C5 3A A3 5C C5 3A A3 5C. -/
theorem dsSendCodes_emits_nine_ops :
    dsSendCodesTrace = (wakeOpsSpec.map renderXferOp).flatten
    ∧ wakeOpsSpec.length = 9 := by
  decide

/-- C5: send-byte asserts chip-enable, sets the data line to output, writes
the 8 bits of `n` least-significant-bit first, then deasserts chip-enable;
receive-byte sets the data line to input, asserts chip-enable, reads 8 bits
least-significant-bit first (bit `i` of the assembled byte is the i-th bit
read), and deasserts chip-enable; the assembled result is an 8-bit value. -/
theorem byteTransport_lsb_first (n : Nat) (s : Nat → Bool) (pos i : Nat)
    (hn : n < 256) (hi : i < 8) :
    dsSendByteTrace n = dsSendByteSpecTrace n
    ∧ dsReadByteTrace
        = [PinEvent.pinMode dsDQ0pin false, PinEvent.digitalWrite ds_CEpin false]
          ++ (List.range 8).flatMap (fun _ => dsReadBitTrace)
          ++ [PinEvent.digitalWrite ds_CEpin true]
    ∧ (dsReadByteVal s pos).testBit i = s (pos + i)
    ∧ dsReadByteVal s pos < 256 := by
  refine ⟨sendTrace_eq_spec n hn, by decide, ?_, assembleByte_lt _ _ _ _ _ _ _ _⟩
  show (assembleByte (s pos) (s (pos+1)) (s (pos+2)) (s (pos+3))
    (s (pos+4)) (s (pos+5)) (s (pos+6)) (s (pos+7))).testBit i = s (pos + i)
  rw [assembleByte_testBit _ _ _ _ _ _ _ _ i hi]
  interval_cases i <;> simp [List.getD]

/-- C5 (witness): the byte-transport properties instantiated at byte 0xB6,
the all-low read stream, read position 5, and bit index 2. -/
theorem byteTransport_lsb_first_witness :
    (0xB6 < 256 ∧ 2 < 8)
    ∧ (dsSendByteTrace 0xB6 = dsSendByteSpecTrace 0xB6
       ∧ dsReadByteTrace
           = [PinEvent.pinMode dsDQ0pin false, PinEvent.digitalWrite ds_CEpin false]
             ++ (List.range 8).flatMap (fun _ => dsReadBitTrace)
             ++ [PinEvent.digitalWrite ds_CEpin true]
       ∧ (dsReadByteVal zeroBits 5).testBit 2 = zeroBits (5 + 2)
       ∧ dsReadByteVal zeroBits 5 < 256) :=
  ⟨⟨by decide, by decide⟩, byteTransport_lsb_first 0xB6 zeroBits 5 2 (by decide) (by decide)⟩

/-- C6: a full read cycle issues the complete wake sequence and then exactly
8 receive-byte operations; its trace is the concatenation of the 17 byte-level
chunks, every chunk leaves chip-enable deasserted (HIGH), the whole cycle
leaves chip-enable deasserted, and register slot `i` receives the i-th byte
read (the fixed register index order 0 through 7). -/
theorem readCycle_structure (s : Nat → Bool) (pos i : Nat) (hi : i < 8) :
    dsReadAndPrintTimeTrace
        = dsSendCodesTrace ++ (List.replicate 8 dsReadByteTrace).flatten
    ∧ dsReadAndPrintTimeTrace = dsReadCycleChunks.flatten
    ∧ dsReadCycleChunks.all (fun c => ceFinal c == some true) = true
    ∧ ceFinal dsReadAndPrintTimeTrace = some true
    ∧ (dsReadRegistersVal s pos).getD i 0 = dsReadByteVal s (pos + 8 * i) :=
  ⟨by decide, by decide, by decide, by decide,
    by interval_cases i <;> norm_num [dsReadRegistersVal]⟩

/-- C6 (witness): the read-cycle structure instantiated at the all-low read
stream, start position 0, and register index 3. -/
theorem readCycle_structure_witness :
    3 < 8
    ∧ (dsReadAndPrintTimeTrace
          = dsSendCodesTrace ++ (List.replicate 8 dsReadByteTrace).flatten
       ∧ dsReadAndPrintTimeTrace = dsReadCycleChunks.flatten
       ∧ dsReadCycleChunks.all (fun c => ceFinal c == some true) = true
       ∧ ceFinal dsReadAndPrintTimeTrace = some true
       ∧ (dsReadRegistersVal zeroBits 0).getD 3 0 = dsReadByteVal zeroBits (0 + 8 * 3)) :=
  ⟨by decide, readCycle_structure zeroBits 0 3 (by decide)⟩

/-- C7: decoding the BCD encoding of any `d` in [0,99] yields `d` back. -/
theorem BCD_decode_encode_roundtrip (d : Nat) (h : d ≤ 99) :
    BCD2Decimal (decimal2BCD d) = d :=
  bcd_round d h

/-- C7 (witness): the BCD round trip at the concrete value 47. -/
theorem BCD_decode_encode_roundtrip_witness :
    47 ≤ 99 ∧ BCD2Decimal (decimal2BCD 47) = 47 :=
  ⟨by decide, BCD_decode_encode_roundtrip 47 (by decide)⟩

/-- C8: re-encoding the decoded value of any byte whose two nibbles are each
in [0,9] yields the byte back. -/
theorem BCD_encode_decode_roundtrip (b : Nat) (hb : b < 256)
    (hhi : b / 16 ≤ 9) (hlo : b % 16 ≤ 9) :
    decimal2BCD (BCD2Decimal b) = b := by
  revert b; decide

/-- C8 (witness): the encode-decode round trip at the concrete byte 0x59. -/
theorem BCD_encode_decode_roundtrip_witness :
    0x59 < 256 ∧ 0x59 / 16 ≤ 9 ∧ 0x59 % 16 ≤ 9
    ∧ decimal2BCD (BCD2Decimal 0x59) = 0x59 :=
  ⟨by decide, by decide, by decide,
    BCD_encode_decode_roundtrip 0x59 (by decide) (by decide) (by decide)⟩

/-- C9 (counterexample): it is NOT true that every byte input above 99 makes
`decimal2BCD` produce an invalid nibble: at input 200 the 8-bit arithmetic
wraps ((200/10)*16 + 200%10 = 320, and 320 mod 256 = 64 = 0x40), so both
nibbles of the result are valid decimal digits. -/
theorem decimal2BCD_wraps_to_valid_nibbles_at_200 :
    99 < 200
    ∧ decimal2BCD 200 = 0x40
    ∧ ¬ (10 ≤ decimal2BCD 200 / 16 ∨ 10 ≤ decimal2BCD 200 % 16) := by
  decide

/-- C9 (amended): for every byte input in [100,159] — the out-of-range inputs
for which `(dec/10)*16 + dec%10` still fits in 8 bits — `decimal2BCD`
produces a result with at least one nibble that is not a valid decimal digit;
for inputs in [160,255] the 8-bit wrap-around can yield two valid nibbles. -/
theorem decimal2BCD_invalid_nibble_below_160 (d : Nat) (h1 : d < 160) (h2 : 99 < d) :
    10 ≤ decimal2BCD d / 16 ∨ 10 ≤ decimal2BCD d % 16 := by
  revert d; decide

/-- C9 (witness): the invalid-nibble property at the concrete input 123. -/
theorem decimal2BCD_invalid_nibble_below_160_witness :
    (123 < 160 ∧ 99 < 123)
    ∧ (10 ≤ decimal2BCD 123 / 16 ∨ 10 ≤ decimal2BCD 123 % 16) :=
  ⟨⟨by decide, by decide⟩, decimal2BCD_invalid_nibble_below_160 123 (by decide) (by decide)⟩

/-- C10: `dsWriteRegisters` takes the year as a full `int`, writes the
sub-second register unconditionally as 0 and the year register as the BCD
encoding of `year % 100` converted to a byte; in particular the 4-digit
input 2019 is silently stored as BCD 0x19. -/
theorem dsWriteRegisters_year_truncation_subsec_zero :
    (∀ (year : Int) (month day dow hours minutes seconds : Nat),
        (dsWriteRegsImage year month day dow hours minutes seconds).getD
            dsSubSecondRegister 0 = 0
        ∧ (dsWriteRegsImage year month day dow hours minutes seconds).getD
            dsYearRegister 0 = decimal2BCD (byteOfInt (year.tmod 100)))
    ∧ (dsWriteRegsImage 2019 1 19 5 20 21 20).getD dsYearRegister 0 = 0x19
    ∧ byteOfInt ((2019 : Int).tmod 100) = 19 :=
  ⟨fun _ _ _ _ _ _ _ => ⟨rfl, rfl⟩, by decide, by decide⟩

end DS1216
